import Mathlib

/-!
Shallow embedding of `src/cloudflare_mcp_server/__init__.py` (the Cloudflare
MCP server).  Tool arguments and JSON payloads are modelled by `JVal`; the
outbound HTTP layer is modelled by an explicit `Remote` function (state passed
through so that stub remotes can record requests or hold a key-value store).
Numbers are modelled as integers (every numeric value in play is integral);
the exact wording of Python exception texts that no behaviour depends on
(`KeyError`, httpx status errors) is abstracted to short fixed strings, while
the messages the code formats itself are reproduced verbatim.
-/

/-- JSON-like value: the type of tool arguments, request bodies and
response bodies. -/
inductive JVal where
  | null : JVal
  | bool : Bool → JVal
  | num : Int → JVal
  | str : String → JVal
  | arr : List JVal → JVal
  | obj : List (String × JVal) → JVal

/-- Python truthiness of a JSON value (`None`, `False`, `0`, `""`, `[]`,
and the empty object are falsy). -/
def JVal.truthy : JVal → Bool
  | .null => false
  | .bool b => b
  | .num n => n != 0
  | .str s => s != ""
  | .arr xs => !xs.isEmpty
  | .obj fs => !fs.isEmpty

/-- Escape a character for inclusion in a JSON string literal (the
`ensure_ascii` escaping of non-ASCII characters is abstracted away;
nothing in the code depends on it). -/
def jsonEscapeChar (c : Char) : String :=
  if c = '\\' then "\\\\"
  else if c = '"' then "\\\""
  else if c = '\n' then "\\n"
  else if c = '\t' then "\\t"
  else if c = '\r' then "\\r"
  else String.singleton c

/-- Render a string as a JSON string literal, as `json.dumps` does. -/
def jsonQuote (s : String) : String :=
  "\"" ++ String.join (s.toList.map jsonEscapeChar) ++ "\""

mutual
/-- Compact JSON serialization, as Python `json.dumps(v)` (default
separators). -/
def JVal.dumps : JVal → String
  | .null => "null"
  | .bool true => "true"
  | .bool false => "false"
  | .num n => toString n
  | .str s => jsonQuote s
  | .arr xs => "[" ++ dumpsItems xs ++ "]"
  | .obj fs => "\x7b" ++ dumpsFields fs ++ "\x7d"

/-- Comma-separated serialization of array items. -/
def dumpsItems : List JVal → String
  | [] => ""
  | [x] => JVal.dumps x
  | x :: y :: xs => JVal.dumps x ++ ", " ++ dumpsItems (y :: xs)

/-- Comma-separated serialization of object fields. -/
def dumpsFields : List (String × JVal) → String
  | [] => ""
  | [(k, v)] => jsonQuote k ++ ": " ++ JVal.dumps v
  | (k, v) :: f :: fs => jsonQuote k ++ ": " ++ JVal.dumps v ++ ", " ++ dumpsFields (f :: fs)
end

/-- A run of `n` spaces, for indented serialization. -/
def spaces : Nat → String
  | 0 => ""
  | n + 1 => spaces n ++ " "

mutual
/-- Indented JSON serialization at nesting level `lvl`, as Python
`json.dumps(v, indent=2)`. -/
def dumpsIndentAux : Nat → JVal → String
  | _, .null => "null"
  | _, .bool true => "true"
  | _, .bool false => "false"
  | _, .num n => toString n
  | _, .str s => jsonQuote s
  | _, .arr [] => "[]"
  | lvl, .arr (x :: xs) =>
      "[\n" ++ dumpsIndentItems lvl (x :: xs) ++ "\n" ++ spaces (2 * lvl) ++ "]"
  | _, .obj [] => "\x7b\x7d"
  | lvl, .obj (f :: fs) =>
      "\x7b\n" ++ dumpsIndentFields lvl (f :: fs) ++ "\n" ++ spaces (2 * lvl) ++ "\x7d"

/-- Indented serialization of array items, one per line. -/
def dumpsIndentItems : Nat → List JVal → String
  | _, [] => ""
  | lvl, [x] => spaces (2 * (lvl + 1)) ++ dumpsIndentAux (lvl + 1) x
  | lvl, x :: y :: xs =>
      spaces (2 * (lvl + 1)) ++ dumpsIndentAux (lvl + 1) x ++ ",\n" ++
        dumpsIndentItems lvl (y :: xs)

/-- Indented serialization of object fields, one per line. -/
def dumpsIndentFields : Nat → List (String × JVal) → String
  | _, [] => ""
  | lvl, [(k, v)] =>
      spaces (2 * (lvl + 1)) ++ jsonQuote k ++ ": " ++ dumpsIndentAux (lvl + 1) v
  | lvl, (k, v) :: f :: fs =>
      spaces (2 * (lvl + 1)) ++ jsonQuote k ++ ": " ++ dumpsIndentAux (lvl + 1) v ++
        ",\n" ++ dumpsIndentFields lvl (f :: fs)
end

/-- Top-level indented serialization, as `json.dumps(v, indent=2)` in
`call_tool`. -/
def JVal.dumpsIndent (v : JVal) : String := dumpsIndentAux 0 v

/-- Python `str()` of a value, as applied by f-string interpolation when a
tool argument is spliced into a URL (containers are abstracted by their
JSON serialization; every argument actually spliced is a string). -/
def JVal.pyStr : JVal → String
  | .str s => s
  | .num n => toString n
  | .bool true => "True"
  | .bool false => "False"
  | .null => "None"
  | .arr xs => JVal.dumps (.arr xs)
  | .obj fs => JVal.dumps (.obj fs)

/-- Fixed base URL of the remote API. -/
def CLOUDFLARE_API_BASE : String := "https://api.cloudflare.com/client/v4"

/-- Process-wide configuration fixed at startup: the bearer token and the
optional default account id. -/
structure Config where
  api_token : String
  account_id : Option String

/-- Body of an outbound HTTP request: none, a JSON object (sent via
`json=data`), or raw text (sent via `content=` for KV value writes). -/
inductive HttpBody where
  | noBody : HttpBody
  | jsonBody : List (String × JVal) → HttpBody
  | rawBody : String → HttpBody

/-- An outbound HTTP request as handed to the HTTP client. -/
structure HttpRequest where
  method : String
  url : String
  params : List (String × JVal)
  headers : List (String × String)
  body : HttpBody

instance : Inhabited HttpRequest :=
  ⟨⟨"", "", [], [], HttpBody.noBody⟩⟩

/-- An HTTP response: status code, raw text body, and the result of
parsing the body as JSON (`none` when unparsable). -/
structure HttpResponse where
  status : Nat
  text : String
  json : Option JVal

/-- A remote endpoint: a state-passing function from requests to
responses, standing for the network plus server on the other side. -/
def Remote (σ : Type) : Type := σ → HttpRequest → HttpResponse × σ

/-- Whether a status code is a 2xx success (httpx `raise_for_status`
raises for every other status). -/
def statusOk (s : Nat) : Bool := decide (200 ≤ s) && decide (s < 300)

/-- Tool-call arguments: a JSON object, keyed by argument name. -/
abbrev Args := List (String × JVal)

/-- Python `dict.get`: the value at a key, or `none` when absent. -/
def dictGet : List (String × JVal) → String → Option JVal
  | [], _ => none
  | (k, v) :: rest, key => if k = key then some v else dictGet rest key

/-- Truthiness of `args.get(k)` (an absent key behaves like `None`). -/
def truthyArg (args : Args) (k : String) : Bool :=
  ((dictGet args k).getD JVal.null).truthy

/-- The `if args.get(k): d[k] = args[k]` idiom: append the field when the
supplied value is truthy. -/
def addIfTruthy (args : Args) (k : String) (ps : List (String × JVal)) :
    List (String × JVal) :=
  if truthyArg args k then ps ++ [(k, (dictGet args k).getD JVal.null)] else ps

/-- The `if k in args: d[k] = args[k]` idiom: append the field when the key
is present, whatever its value. -/
def addIfPresent (args : Args) (k : String) (ps : List (String × JVal)) :
    List (String × JVal) :=
  match dictGet args k with
  | some v => ps ++ [(k, v)]
  | none => ps

/-- Helper `_make_request`: send a request through the envelope
convention (bearer auth, JSON content type, `raise_for_status`, parse the
body, check `success`, unwrap `result` or raise carrying the serialized
`errors` list). Failure is an `Except.error` carrying the exception
message. -/
def _make_request {σ : Type} (cfg : Config) (remote : Remote σ) (st : σ)
    (endpoint method : String) (data : Option (List (String × JVal)))
    (params : List (String × JVal)) : Except String JVal × σ :=
  let url := CLOUDFLARE_API_BASE ++ endpoint
  let headers := [("Authorization", "Bearer " ++ cfg.api_token),
                  ("Content-Type", "application/json")]
  let body := match data with
    | some d => HttpBody.jsonBody d
    | none => HttpBody.noBody
  let rp := remote st ⟨method, url, params, headers, body⟩
  if statusOk rp.1.status then
    match rp.1.json with
    | some (JVal.obj fields) =>
      if ((dictGet fields "success").getD JVal.null).truthy then
        (Except.ok ((dictGet fields "result").getD JVal.null), rp.2)
      else
        (Except.error ("Cloudflare API error: " ++
          JVal.dumps ((dictGet fields "errors").getD (JVal.arr []))), rp.2)
    | some _ => (Except.error "AttributeError: response is not a JSON object", rp.2)
    | none => (Except.error "JSONDecodeError: response body is not JSON", rp.2)
  else
    (Except.error ("HTTP error occurred: status " ++ toString rp.1.status), rp.2)

/-- Message raised when neither the arguments nor the configuration
provide an account id. -/
def requiredAccountMsg : String :=
  "Account ID is required. Provide it in args or config."

/-- The `args.get("account_id") or self.account_id` resolution followed by
the `if not account_id: raise ValueError(...)` guard: a truthy argument
wins; otherwise the configured default, which must itself be truthy. -/
def resolveAccountId (cfg : Config) (args : Args) : Except String String :=
  let v := (dictGet args "account_id").getD JVal.null
  if v.truthy then Except.ok v.pyStr
  else
    match cfg.account_id with
    | some s => if s = "" then Except.error requiredAccountMsg else Except.ok s
    | none => Except.error requiredAccountMsg

/-- Handler `_list_zones`: GET `/zones` with the four optional query
parameters included only when supplied and truthy. -/
def _list_zones {σ : Type} (cfg : Config) (remote : Remote σ) (st : σ)
    (args : Args) : Except String JVal × σ :=
  let params := addIfTruthy args "per_page" (addIfTruthy args "page"
    (addIfTruthy args "status" (addIfTruthy args "name" [])))
  _make_request cfg remote st "/zones" "GET" none params

/-- Handler `_get_zone`: GET `/zones/{zone_id}`; a missing `zone_id` is a
`KeyError` raised before any request. -/
def _get_zone {σ : Type} (cfg : Config) (remote : Remote σ) (st : σ)
    (args : Args) : Except String JVal × σ :=
  match dictGet args "zone_id" with
  | some z => _make_request cfg remote st ("/zones/" ++ z.pyStr) "GET" none []
  | none => (Except.error "KeyError: zone_id", st)

/-- Handler `_list_dns_records`: GET `/zones/{zone_id}/dns_records` with
five optional truthiness-gated query parameters. -/
def _list_dns_records {σ : Type} (cfg : Config) (remote : Remote σ) (st : σ)
    (args : Args) : Except String JVal × σ :=
  let params := addIfTruthy args "per_page" (addIfTruthy args "page"
    (addIfTruthy args "content" (addIfTruthy args "name"
      (addIfTruthy args "type" []))))
  match dictGet args "zone_id" with
  | some z =>
      _make_request cfg remote st ("/zones/" ++ z.pyStr ++ "/dns_records")
        "GET" none params
  | none => (Except.error "KeyError: zone_id", st)

/-- Handler `_create_dns_record`: POST body with required type/name/content,
`ttl` defaulted to 1 via `args.get("ttl", 1)`, and presence-gated
proxied/priority/comment. -/
def _create_dns_record {σ : Type} (cfg : Config) (remote : Remote σ) (st : σ)
    (args : Args) : Except String JVal × σ :=
  match dictGet args "type", dictGet args "name", dictGet args "content" with
  | some t, some n, some c =>
    let data := addIfPresent args "comment" (addIfPresent args "priority"
      (addIfPresent args "proxied"
        [("type", t), ("name", n), ("content", c),
         ("ttl", (dictGet args "ttl").getD (JVal.num 1))]))
    match dictGet args "zone_id" with
    | some z =>
        _make_request cfg remote st ("/zones/" ++ z.pyStr ++ "/dns_records")
          "POST" (some data) []
    | none => (Except.error "KeyError: zone_id", st)
  | _, _, _ => (Except.error "KeyError: type, name or content", st)

/-- Handler `_update_dns_record`: PUT body with required type/name/content
and presence-gated ttl/proxied/priority/comment. -/
def _update_dns_record {σ : Type} (cfg : Config) (remote : Remote σ) (st : σ)
    (args : Args) : Except String JVal × σ :=
  match dictGet args "type", dictGet args "name", dictGet args "content" with
  | some t, some n, some c =>
    let data := addIfPresent args "comment" (addIfPresent args "priority"
      (addIfPresent args "proxied" (addIfPresent args "ttl"
        [("type", t), ("name", n), ("content", c)])))
    match dictGet args "zone_id", dictGet args "record_id" with
    | some z, some r =>
        _make_request cfg remote st
          ("/zones/" ++ z.pyStr ++ "/dns_records/" ++ r.pyStr)
          "PUT" (some data) []
    | _, _ => (Except.error "KeyError: zone_id or record_id", st)
  | _, _, _ => (Except.error "KeyError: type, name or content", st)

/-- Handler `_delete_dns_record`: DELETE
`/zones/{zone_id}/dns_records/{record_id}`. -/
def _delete_dns_record {σ : Type} (cfg : Config) (remote : Remote σ) (st : σ)
    (args : Args) : Except String JVal × σ :=
  match dictGet args "zone_id", dictGet args "record_id" with
  | some z, some r =>
      _make_request cfg remote st
        ("/zones/" ++ z.pyStr ++ "/dns_records/" ++ r.pyStr) "DELETE" none []
  | _, _ => (Except.error "KeyError: zone_id or record_id", st)

/-- Handler `_purge_cache`: when `purge_everything` is truthy the body is
exactly that flag; otherwise the truthy selectors among
files/tags/hosts. -/
def _purge_cache {σ : Type} (cfg : Config) (remote : Remote σ) (st : σ)
    (args : Args) : Except String JVal × σ :=
  let data :=
    if truthyArg args "purge_everything" then
      [("purge_everything", JVal.bool true)]
    else
      addIfTruthy args "hosts" (addIfTruthy args "tags"
        (addIfTruthy args "files" []))
  match dictGet args "zone_id" with
  | some z =>
      _make_request cfg remote st ("/zones/" ++ z.pyStr ++ "/purge_cache")
        "POST" (some data) []
  | none => (Except.error "KeyError: zone_id", st)

/-- Handler `_list_kv_namespaces`: resolves the account id, then GET
`/accounts/{account_id}/storage/kv/namespaces`. -/
def _list_kv_namespaces {σ : Type} (cfg : Config) (remote : Remote σ) (st : σ)
    (args : Args) : Except String JVal × σ :=
  match resolveAccountId cfg args with
  | Except.error e => (Except.error e, st)
  | Except.ok account_id =>
    let params := addIfTruthy args "per_page" (addIfTruthy args "page" [])
    _make_request cfg remote st
      ("/accounts/" ++ account_id ++ "/storage/kv/namespaces") "GET" none params

/-- URL of a KV value endpoint, as the f-string shared by the three raw
KV handlers. -/
def kvValuesUrl (account_id : String) (ns k : JVal) : String :=
  CLOUDFLARE_API_BASE ++ "/accounts/" ++ account_id ++
    "/storage/kv/namespaces/" ++ ns.pyStr ++ "/values/" ++ k.pyStr

/-- Handler `_read_kv_value`: raw GET of the value endpoint, bypassing the
JSON envelope; returns the response text on a 2xx status. -/
def _read_kv_value {σ : Type} (cfg : Config) (remote : Remote σ) (st : σ)
    (args : Args) : Except String String × σ :=
  match resolveAccountId cfg args with
  | Except.error e => (Except.error e, st)
  | Except.ok account_id =>
    match dictGet args "namespace_id", dictGet args "key" with
    | some ns, some k =>
      let url := kvValuesUrl account_id ns k
      let headers := [("Authorization", "Bearer " ++ cfg.api_token)]
      let rp := remote st ⟨"GET", url, [], headers, HttpBody.noBody⟩
      if statusOk rp.1.status then (Except.ok rp.1.text, rp.2)
      else (Except.error ("HTTP status error: " ++ toString rp.1.status), rp.2)
    | _, _ => (Except.error "KeyError: namespace_id or key", st)

/-- Handler `_write_kv_value`: raw PUT of the value as text, with
truthiness-gated `expiration_ttl` and JSON-serialized `metadata` query
parameters; on a 2xx status the fixed success message is returned and the
response body is discarded. -/
def _write_kv_value {σ : Type} (cfg : Config) (remote : Remote σ) (st : σ)
    (args : Args) : Except String String × σ :=
  match resolveAccountId cfg args with
  | Except.error e => (Except.error e, st)
  | Except.ok account_id =>
    match dictGet args "namespace_id", dictGet args "key" with
    | some ns, some k =>
      let url := kvValuesUrl account_id ns k
      let params := addIfTruthy args "expiration_ttl" []
      let params :=
        match dictGet args "metadata" with
        | some m =>
            if m.truthy then params ++ [("metadata", JVal.str m.dumps)]
            else params
        | none => params
      match dictGet args "value" with
      | some v =>
        let headers := [("Authorization", "Bearer " ++ cfg.api_token),
                        ("Content-Type", "text/plain")]
        let rp := remote st ⟨"PUT", url, params, headers,
          HttpBody.rawBody v.pyStr⟩
        if statusOk rp.1.status then
          (Except.ok "KV value written successfully", rp.2)
        else (Except.error ("HTTP status error: " ++ toString rp.1.status), rp.2)
      | none => (Except.error "KeyError: value", st)
    | _, _ => (Except.error "KeyError: namespace_id or key", st)

/-- Handler `_delete_kv_value`: raw DELETE of the value endpoint; on a 2xx
status the fixed success message is returned and the response body is
discarded. -/
def _delete_kv_value {σ : Type} (cfg : Config) (remote : Remote σ) (st : σ)
    (args : Args) : Except String String × σ :=
  match resolveAccountId cfg args with
  | Except.error e => (Except.error e, st)
  | Except.ok account_id =>
    match dictGet args "namespace_id", dictGet args "key" with
    | some ns, some k =>
      let url := kvValuesUrl account_id ns k
      let headers := [("Authorization", "Bearer " ++ cfg.api_token)]
      let rp := remote st ⟨"DELETE", url, [], headers, HttpBody.noBody⟩
      if statusOk rp.1.status then
        (Except.ok "KV value deleted successfully", rp.2)
      else (Except.error ("HTTP status error: " ++ toString rp.1.status), rp.2)
    | _, _ => (Except.error "KeyError: namespace_id or key", st)

/-- Handler `_list_kv_keys`: GET
`/accounts/{account_id}/storage/kv/namespaces/{namespace_id}/keys` with
truthiness-gated prefix/limit/cursor query parameters. -/
def _list_kv_keys {σ : Type} (cfg : Config) (remote : Remote σ) (st : σ)
    (args : Args) : Except String JVal × σ :=
  match resolveAccountId cfg args with
  | Except.error e => (Except.error e, st)
  | Except.ok account_id =>
    let params := addIfTruthy args "cursor" (addIfTruthy args "limit"
      (addIfTruthy args "prefix" []))
    match dictGet args "namespace_id" with
    | some ns =>
        _make_request cfg remote st
          ("/accounts/" ++ account_id ++ "/storage/kv/namespaces/" ++
            ns.pyStr ++ "/keys") "GET" none params
    | none => (Except.error "KeyError: namespace_id", st)

/-- Handler `_get_zone_analytics`: GET
`/zones/{zone_id}/analytics/dashboard` with truthiness-gated since/until
query parameters. -/
def _get_zone_analytics {σ : Type} (cfg : Config) (remote : Remote σ) (st : σ)
    (args : Args) : Except String JVal × σ :=
  let params := addIfTruthy args "until" (addIfTruthy args "since" [])
  match dictGet args "zone_id" with
  | some z =>
      _make_request cfg remote st
        ("/zones/" ++ z.pyStr ++ "/analytics/dashboard") "GET" none params
  | none => (Except.error "KeyError: zone_id", st)

/-- The 13 tool names of the registry, in registration order. -/
def registeredTools : List String :=
  ["list_zones", "get_zone", "list_dns_records", "create_dns_record",
   "update_dns_record", "delete_dns_record", "purge_cache",
   "list_kv_namespaces", "read_kv_value", "write_kv_value",
   "delete_kv_value", "list_kv_keys", "get_zone_analytics"]

/-- Body of the `try` block of `call_tool`: select the handler by exact
name match and run it (raw KV string results are later JSON-serialized
like any other result, so they are injected into `JVal` here); an unknown
name raises `ValueError`. -/
def dispatchTool {σ : Type} (cfg : Config) (remote : Remote σ) (st : σ)
    (name : String) (args : Args) : Except String JVal × σ :=
  if name = "list_zones" then _list_zones cfg remote st args
  else if name = "get_zone" then _get_zone cfg remote st args
  else if name = "list_dns_records" then _list_dns_records cfg remote st args
  else if name = "create_dns_record" then _create_dns_record cfg remote st args
  else if name = "update_dns_record" then _update_dns_record cfg remote st args
  else if name = "delete_dns_record" then _delete_dns_record cfg remote st args
  else if name = "purge_cache" then _purge_cache cfg remote st args
  else if name = "list_kv_namespaces" then _list_kv_namespaces cfg remote st args
  else if name = "read_kv_value" then
    let p := _read_kv_value cfg remote st args
    (p.1.map JVal.str, p.2)
  else if name = "write_kv_value" then
    let p := _write_kv_value cfg remote st args
    (p.1.map JVal.str, p.2)
  else if name = "delete_kv_value" then
    let p := _delete_kv_value cfg remote st args
    (p.1.map JVal.str, p.2)
  else if name = "list_kv_keys" then _list_kv_keys cfg remote st args
  else if name = "get_zone_analytics" then _get_zone_analytics cfg remote st args
  else (Except.error ("Unknown tool: " ++ name), st)

/-- A text content block as returned to the transport. -/
structure TextContent where
  type : String
  text : String

/-- The dispatcher `call_tool`: run the selected handler inside the
try/except; a success is returned as one JSON-stringified text block, any
failure as one `Error: <message>` text block. -/
def call_tool {σ : Type} (cfg : Config) (remote : Remote σ) (st : σ)
    (name : String) (args : Args) : List TextContent × σ :=
  let p := dispatchTool cfg remote st name args
  match p.1 with
  | Except.ok v => ([⟨"text", JVal.dumpsIndent v⟩], p.2)
  | Except.error e => ([⟨"text", "Error: " ++ e⟩], p.2)

/-- A recording remote: logs every request and answers with a successful
empty envelope. Handlers build their request independently of the remote,
so the log exposes exactly what would be sent to any remote. -/
def spyRemote : Remote (List HttpRequest) :=
  fun st req =>
    (⟨200, "", some (JVal.obj [("success", JVal.bool true),
      ("result", JVal.null)])⟩, st ++ [req])

/-- A remote that returns the same response to every request. -/
def constRemote (resp : HttpResponse) : Remote Unit :=
  fun st _ => (resp, st)

/-- Lookup in the stub KV store (url to raw stored body). -/
def storeGet : List (String × String) → String → Option String
  | [], _ => none
  | (k, v) :: rest, key => if k = key then some v else storeGet rest key

/-- A stub remote KV API: a PUT stores the raw request body under the
request URL; a GET returns the stored body verbatim (404 when absent). -/
def kvStubRemote : Remote (List (String × String)) :=
  fun st req =>
    match req.method, req.body with
    | "PUT", HttpBody.rawBody s => (⟨200, "", none⟩, (req.url, s) :: st)
    | "GET", _ =>
      match storeGet st req.url with
      | some v => (⟨200, v, none⟩, st)
      | none => (⟨404, "", none⟩, st)
    | _, _ => (⟨200, "", none⟩, st)

/-- The fields of a JSON request body (empty for raw or absent bodies). -/
def HttpBody.jsonFields : HttpBody → List (String × JVal)
  | .jsonBody d => d
  | _ => []

/-- Whether a key occurs in a query-parameter or body field list. -/
def hasKeyJ : List (String × JVal) → String → Bool
  | [], _ => false
  | (k, _) :: rest, key => decide (k = key) || hasKeyJ rest key

/-- A configuration with a token and a default account id, for concrete
runs. -/
def cfgDefaultAcct : Config := ⟨"tok", some "default-acct"⟩

/-- A configuration with a token and no default account id. -/
def cfgNoAcct : Config := ⟨"tok", none⟩

/-- Arguments supplying an explicitly empty `account_id` alongside the
required KV fields. -/
def argsEmptyAcct : Args :=
  [("account_id", JVal.str ""), ("namespace_id", JVal.str "ns1"),
   ("key", JVal.str "k1")]

/-- Arguments exercising both optional-field regimes at once: the
required DNS and KV fields present, `proxied`, `ttl`, `page` and
`expiration_ttl` supplied falsy, `status` and `files` supplied truthy,
everything else omitted. -/
def argsRegimes : Args :=
  [("zone_id", JVal.str "z1"), ("record_id", JVal.str "r1"),
   ("type", JVal.str "A"), ("name", JVal.str "n1"),
   ("content", JVal.str "c1"), ("namespace_id", JVal.str "ns1"),
   ("key", JVal.str "k1"), ("value", JVal.str "v1"),
   ("proxied", JVal.bool false), ("ttl", JVal.num 0),
   ("page", JVal.num 0), ("expiration_ttl", JVal.num 0),
   ("status", JVal.str "active"), ("files", JVal.arr [JVal.str "u1"])]
theorem hasKeyJ_append (ps qs : List (String × JVal)) (k : String) :
    hasKeyJ (ps ++ qs) k = (hasKeyJ ps k || hasKeyJ qs k) := by
  induction ps with
  | nil => simp [hasKeyJ]
  | cons p ps ih => cases p; simp [hasKeyJ, ih, Bool.or_assoc]

theorem hasKeyJ_addIfTruthy (args : Args) (k k' : String)
    (ps : List (String × JVal)) :
    hasKeyJ (addIfTruthy args k ps) k' =
      (hasKeyJ ps k' || (decide (k = k') && truthyArg args k)) := by
  unfold addIfTruthy
  by_cases h : truthyArg args k <;> simp [h, hasKeyJ_append, hasKeyJ]

theorem hasKeyJ_addIfPresent (args : Args) (k k' : String)
    (ps : List (String × JVal)) :
    hasKeyJ (addIfPresent args k ps) k' =
      (hasKeyJ ps k' || (decide (k = k') && (dictGet args k).isSome)) := by
  unfold addIfPresent
  cases h : dictGet args k <;> simp [hasKeyJ_append, hasKeyJ, h]

/-- C1: every per-call failure is caught at the dispatch boundary and
returned as a single `Error: <message>` text block, and every success is
returned as a single JSON-stringified text block; no failure escapes. -/
theorem call_tool_wraps_all_failures {σ : Type} (cfg : Config)
    (remote : Remote σ) (st : σ) (name : String) (args : Args) :
    ∃ t : String, (call_tool cfg remote st name args).1 = [⟨"text", t⟩] ∧
      ((∃ e, (dispatchTool cfg remote st name args).1 = Except.error e ∧
          t = "Error: " ++ e) ∨
       (∃ v, (dispatchTool cfg remote st name args).1 = Except.ok v ∧
          t = JVal.dumpsIndent v)) := by
  rcases h : (dispatchTool cfg remote st name args).1 with e | v
  · exact ⟨"Error: " ++ e, by simp [call_tool, h], Or.inl ⟨e, rfl, rfl⟩⟩
  · exact ⟨JVal.dumpsIndent v, by simp [call_tool, h], Or.inr ⟨v, rfl, rfl⟩⟩

/-- C2: a name outside the 13-entry registry yields the
`Error: Unknown tool: <name>` text, leaves the remote untouched, and
never escapes as an exception. -/
theorem call_tool_unknown_tool {σ : Type} (cfg : Config) (remote : Remote σ)
    (st : σ) (name : String) (args : Args)
    (h : name ∉ registeredTools) :
    call_tool cfg remote st name args =
      ([⟨"text", "Error: Unknown tool: " ++ name⟩], st) := by
  simp [registeredTools] at h
  obtain ⟨h1, h2, h3, h4, h5, h6, h7, h8, h9, h10, h11, h12, h13⟩ := h
  simp only [call_tool, dispatchTool, h1, h2, h3, h4, h5, h6, h7, h8, h9, h10,
    h11, h12, h13, if_false]
  rfl

/-- Witness for C2 at the concrete unregistered name `frobnicate`. -/
theorem call_tool_unknown_tool_witness :
    call_tool cfgNoAcct (constRemote ⟨200, "", none⟩) () "frobnicate" [] =
      ([⟨"text", "Error: Unknown tool: frobnicate"⟩], ()) :=
  call_tool_unknown_tool cfgNoAcct (constRemote ⟨200, "", none⟩) ()
    "frobnicate" [] (by decide)
/-- C3: when `purge_everything` is truthy, the one outbound POST body is
exactly the flag, with no files/tags/hosts selectors, whatever else the
arguments supply. -/
theorem purge_cache_everything_exclusive (cfg : Config) (args : Args)
    (z : JVal) (hz : dictGet args "zone_id" = some z)
    (hp : truthyArg args "purge_everything" = true) :
    (_purge_cache cfg spyRemote [] args).2.map
        (fun r => (r.method, r.body.jsonFields)) =
      [("POST", [("purge_everything", JVal.bool true)])] := by
  simp [_purge_cache, hz, hp, _make_request, spyRemote, HttpBody.jsonFields,
    statusOk, dictGet, JVal.truthy]

/-- Witness for C3: purging everything while also supplying a non-empty
`files` array. -/
theorem purge_cache_everything_exclusive_witness :
    (_purge_cache cfgDefaultAcct spyRemote []
        [("zone_id", JVal.str "z1"), ("purge_everything", JVal.bool true),
         ("files", JVal.arr [JVal.str "https://e.com/a"])]).2.map
        (fun r => (r.method, r.body.jsonFields)) =
      [("POST", [("purge_everything", JVal.bool true)])] :=
  purge_cache_everything_exclusive cfgDefaultAcct
    [("zone_id", JVal.str "z1"), ("purge_everything", JVal.bool true),
     ("files", JVal.arr [JVal.str "https://e.com/a"])]
    (JVal.str "z1") rfl rfl

/-- C4: with only the four required fields supplied, the one outbound
POST body is exactly type, name, content and `ttl = 1`, with none of
proxied, priority, comment. -/
theorem create_dns_record_defaults (cfg : Config) (args : Args)
    (z t n c : JVal)
    (hz : dictGet args "zone_id" = some z)
    (ht : dictGet args "type" = some t)
    (hn : dictGet args "name" = some n)
    (hc : dictGet args "content" = some c)
    (httl : dictGet args "ttl" = none)
    (hpx : dictGet args "proxied" = none)
    (hpr : dictGet args "priority" = none)
    (hcm : dictGet args "comment" = none) :
    (_create_dns_record cfg spyRemote [] args).2.map
        (fun r => (r.method, r.body.jsonFields)) =
      [("POST", [("type", t), ("name", n), ("content", c),
        ("ttl", JVal.num 1)])] := by
  simp [_create_dns_record, hz, ht, hn, hc, httl, hpx, hpr, hcm,
    addIfPresent, _make_request, spyRemote, HttpBody.jsonFields, statusOk,
    dictGet, JVal.truthy]

/-- Witness for C4 with a concrete A record. -/
theorem create_dns_record_defaults_witness :
    (_create_dns_record cfgDefaultAcct spyRemote []
        [("zone_id", JVal.str "z1"), ("type", JVal.str "A"),
         ("name", JVal.str "www"), ("content", JVal.str "1.2.3.4")]).2.map
        (fun r => (r.method, r.body.jsonFields)) =
      [("POST", [("type", JVal.str "A"), ("name", JVal.str "www"),
        ("content", JVal.str "1.2.3.4"), ("ttl", JVal.num 1)])] :=
  create_dns_record_defaults cfgDefaultAcct
    [("zone_id", JVal.str "z1"), ("type", JVal.str "A"),
     ("name", JVal.str "www"), ("content", JVal.str "1.2.3.4")]
    (JVal.str "z1") (JVal.str "A") (JVal.str "www") (JVal.str "1.2.3.4")
    rfl rfl rfl rfl rfl rfl rfl rfl

/-- C5: with no `account_id` argument and no configured default, each of
the three KV value handlers fails with the account-id configuration error
and records no outbound request at all. -/
theorem kv_missing_account_config_error (cfg : Config) (args : Args)
    (hcfg : cfg.account_id = none)
    (hargs : dictGet args "account_id" = none) :
    _read_kv_value cfg spyRemote [] args =
      (Except.error requiredAccountMsg, []) ∧
    _write_kv_value cfg spyRemote [] args =
      (Except.error requiredAccountMsg, []) ∧
    _delete_kv_value cfg spyRemote [] args =
      (Except.error requiredAccountMsg, []) := by
  have hres : resolveAccountId cfg args = Except.error requiredAccountMsg := by
    simp [resolveAccountId, hargs, hcfg, JVal.truthy]
  refine ⟨?_, ?_, ?_⟩ <;>
    simp [_read_kv_value, _write_kv_value, _delete_kv_value, hres]

/-- Witness for C5 at concrete arguments naming only namespace and key. -/
theorem kv_missing_account_config_error_witness :
    _read_kv_value cfgNoAcct spyRemote []
        [("namespace_id", JVal.str "ns1"), ("key", JVal.str "k1")] =
      (Except.error requiredAccountMsg, []) ∧
    _write_kv_value cfgNoAcct spyRemote []
        [("namespace_id", JVal.str "ns1"), ("key", JVal.str "k1")] =
      (Except.error requiredAccountMsg, []) ∧
    _delete_kv_value cfgNoAcct spyRemote []
        [("namespace_id", JVal.str "ns1"), ("key", JVal.str "k1")] =
      (Except.error requiredAccountMsg, []) :=
  kv_missing_account_config_error cfgNoAcct
    [("namespace_id", JVal.str "ns1"), ("key", JVal.str "k1")] rfl rfl

/-- C10: on any 2xx response, `_write_kv_value` returns exactly the fixed
written message and `_delete_kv_value` the fixed deleted message; the
response body (text and JSON alike) is arbitrary and never read. -/
theorem kv_write_delete_fixed_messages (cfg : Config) (args : Args)
    (resp : HttpResponse) (a : String) (ns k v : JVal)
    (hacct : resolveAccountId cfg args = Except.ok a)
    (hns : dictGet args "namespace_id" = some ns)
    (hk : dictGet args "key" = some k)
    (hv : dictGet args "value" = some v)
    (h2 : statusOk resp.status = true) :
    (_write_kv_value cfg (constRemote resp) () args).1 =
      Except.ok "KV value written successfully" ∧
    (_delete_kv_value cfg (constRemote resp) () args).1 =
      Except.ok "KV value deleted successfully" := by
  constructor <;>
    simp [_write_kv_value, _delete_kv_value, hacct, hns, hk, hv,
      constRemote, h2]

/-- Witness for C10: a 2xx response whose body is garbage influences
neither fixed message. -/
theorem kv_write_delete_fixed_messages_witness :
    (_write_kv_value cfgDefaultAcct
        (constRemote ⟨204, "garbage body", some (JVal.str "noise")⟩) ()
        [("namespace_id", JVal.str "ns1"), ("key", JVal.str "k1"),
         ("value", JVal.str "v1")]).1 =
      Except.ok "KV value written successfully" ∧
    (_delete_kv_value cfgDefaultAcct
        (constRemote ⟨204, "garbage body", some (JVal.str "noise")⟩) ()
        [("namespace_id", JVal.str "ns1"), ("key", JVal.str "k1"),
         ("value", JVal.str "v1")]).1 =
      Except.ok "KV value deleted successfully" :=
  kv_write_delete_fixed_messages cfgDefaultAcct
    [("namespace_id", JVal.str "ns1"), ("key", JVal.str "k1"),
     ("value", JVal.str "v1")]
    ⟨204, "garbage body", some (JVal.str "noise")⟩ "default-acct"
    (JVal.str "ns1") (JVal.str "k1") (JVal.str "v1")
    rfl rfl rfl rfl rfl
/-- Counterexample to C6: a supplied `account_id` of `""` does not take
precedence — the handler falls back to the configured default, so the
outbound URL names `default-acct`, not the supplied empty string. -/
theorem kv_empty_account_falls_back_to_default :
    (_read_kv_value cfgDefaultAcct spyRemote [] argsEmptyAcct).2.map
        (fun r => r.url) =
      [kvValuesUrl "default-acct" (JVal.str "ns1") (JVal.str "k1")] ∧
    kvValuesUrl "default-acct" (JVal.str "ns1") (JVal.str "k1") ≠
      kvValuesUrl "" (JVal.str "ns1") (JVal.str "k1") := by
  constructor
  · rfl
  · decide

/-- C6 amended: for every KV tool, a supplied truthy `account_id` (in
particular any non-empty string) takes precedence over any configured
default in the outbound URL; a supplied falsy value such as the empty
string instead falls back to the default. -/
theorem kv_truthy_account_precedence (cfg : Config) (args : Args)
    (v ns k val : JVal)
    (hv : dictGet args "account_id" = some v) (ht : v.truthy = true)
    (hns : dictGet args "namespace_id" = some ns)
    (hk : dictGet args "key" = some k)
    (hval : dictGet args "value" = some val) :
    ((_list_kv_namespaces cfg spyRemote [] args).2.map (fun r => r.url) =
      [CLOUDFLARE_API_BASE ++ "/accounts/" ++ v.pyStr ++
        "/storage/kv/namespaces"]) ∧
    ((_read_kv_value cfg spyRemote [] args).2.map (fun r => r.url) =
      [kvValuesUrl v.pyStr ns k]) ∧
    ((_write_kv_value cfg spyRemote [] args).2.map (fun r => r.url) =
      [kvValuesUrl v.pyStr ns k]) ∧
    ((_delete_kv_value cfg spyRemote [] args).2.map (fun r => r.url) =
      [kvValuesUrl v.pyStr ns k]) ∧
    ((_list_kv_keys cfg spyRemote [] args).2.map (fun r => r.url) =
      [CLOUDFLARE_API_BASE ++ "/accounts/" ++ v.pyStr ++
        "/storage/kv/namespaces/" ++ ns.pyStr ++ "/keys"]) := by
  have hres : resolveAccountId cfg args = Except.ok v.pyStr := by
    simp [resolveAccountId, hv, ht]
  refine ⟨?_, ?_, ?_, ?_, ?_⟩ <;>
    simp [_list_kv_namespaces, _read_kv_value, _write_kv_value,
      _delete_kv_value, _list_kv_keys, hres, hns, hk, hval, _make_request,
      spyRemote, statusOk, dictGet, JVal.truthy, String.append_assoc]

/-- Witness for amended C6: explicit account `acct-arg` wins over the
configured default `default-acct` in all five KV handlers. -/
theorem kv_truthy_account_precedence_witness :
    ((_list_kv_namespaces cfgDefaultAcct spyRemote []
        [("account_id", JVal.str "acct-arg"), ("namespace_id", JVal.str "ns1"),
         ("key", JVal.str "k1"), ("value", JVal.str "v1")]).2.map
        (fun r => r.url) =
      [CLOUDFLARE_API_BASE ++ "/accounts/" ++ "acct-arg" ++
        "/storage/kv/namespaces"]) ∧
    ((_read_kv_value cfgDefaultAcct spyRemote []
        [("account_id", JVal.str "acct-arg"), ("namespace_id", JVal.str "ns1"),
         ("key", JVal.str "k1"), ("value", JVal.str "v1")]).2.map
        (fun r => r.url) =
      [kvValuesUrl "acct-arg" (JVal.str "ns1") (JVal.str "k1")]) ∧
    ((_write_kv_value cfgDefaultAcct spyRemote []
        [("account_id", JVal.str "acct-arg"), ("namespace_id", JVal.str "ns1"),
         ("key", JVal.str "k1"), ("value", JVal.str "v1")]).2.map
        (fun r => r.url) =
      [kvValuesUrl "acct-arg" (JVal.str "ns1") (JVal.str "k1")]) ∧
    ((_delete_kv_value cfgDefaultAcct spyRemote []
        [("account_id", JVal.str "acct-arg"), ("namespace_id", JVal.str "ns1"),
         ("key", JVal.str "k1"), ("value", JVal.str "v1")]).2.map
        (fun r => r.url) =
      [kvValuesUrl "acct-arg" (JVal.str "ns1") (JVal.str "k1")]) ∧
    ((_list_kv_keys cfgDefaultAcct spyRemote []
        [("account_id", JVal.str "acct-arg"), ("namespace_id", JVal.str "ns1"),
         ("key", JVal.str "k1"), ("value", JVal.str "v1")]).2.map
        (fun r => r.url) =
      [CLOUDFLARE_API_BASE ++ "/accounts/" ++ "acct-arg" ++
        "/storage/kv/namespaces/" ++ "ns1" ++ "/keys"]) :=
  kv_truthy_account_precedence cfgDefaultAcct
    [("account_id", JVal.str "acct-arg"), ("namespace_id", JVal.str "ns1"),
     ("key", JVal.str "k1"), ("value", JVal.str "v1")]
    (JVal.str "acct-arg") (JVal.str "ns1") (JVal.str "k1") (JVal.str "v1")
    rfl rfl rfl rfl rfl

/-- C7: a 2xx response whose JSON object has a falsy `success` makes the
envelope helper fail with the message carrying the serialized `errors`
list, and any handler failure reaching the dispatcher is surfaced as an
`Error: <message>` text block. -/
theorem envelope_failure_surfaced (cfg : Config) (resp : HttpResponse)
    (fields : List (String × JVal)) (endpoint method : String)
    (data : Option (List (String × JVal))) (params : List (String × JVal))
    (name : String) (args : Args)
    (h2 : statusOk resp.status = true)
    (hj : resp.json = some (JVal.obj fields))
    (hs : ((dictGet fields "success").getD JVal.null).truthy = false) :
    (_make_request cfg (constRemote resp) () endpoint method data params).1 =
      Except.error ("Cloudflare API error: " ++
        JVal.dumps ((dictGet fields "errors").getD (JVal.arr []))) ∧
    (∀ e, (dispatchTool cfg (constRemote resp) () name args).1 =
        Except.error e →
      (call_tool cfg (constRemote resp) () name args).1 =
        [⟨"text", "Error: " ++ e⟩]) := by
  constructor
  · simp [_make_request, constRemote, h2, hj, hs]
  · intro e he
    simp [call_tool, he]

/-- Witness for C7: the envelope from the claim, via `get_zone`, ends as
an error text that spells out `bad`. -/
theorem envelope_failure_surfaced_witness :
    (_make_request cfgDefaultAcct
        (constRemote ⟨200, "",
          some (JVal.obj [("success", JVal.bool false),
            ("errors", JVal.arr [JVal.obj [("code", JVal.num 1000),
              ("message", JVal.str "bad")]])])⟩) ()
        "/zones/z1" "GET" none []).1 =
      Except.error ("Cloudflare API error: " ++
        JVal.dumps ((dictGet [("success", JVal.bool false),
          ("errors", JVal.arr [JVal.obj [("code", JVal.num 1000),
            ("message", JVal.str "bad")]])] "errors").getD (JVal.arr []))) ∧
    (∀ e, (dispatchTool cfgDefaultAcct
        (constRemote ⟨200, "",
          some (JVal.obj [("success", JVal.bool false),
            ("errors", JVal.arr [JVal.obj [("code", JVal.num 1000),
              ("message", JVal.str "bad")]])])⟩) ()
        "get_zone" [("zone_id", JVal.str "z1")]).1 = Except.error e →
      (call_tool cfgDefaultAcct
        (constRemote ⟨200, "",
          some (JVal.obj [("success", JVal.bool false),
            ("errors", JVal.arr [JVal.obj [("code", JVal.num 1000),
              ("message", JVal.str "bad")]])])⟩) ()
        "get_zone" [("zone_id", JVal.str "z1")]).1 =
        [⟨"text", "Error: " ++ e⟩]) :=
  envelope_failure_surfaced cfgDefaultAcct
    ⟨200, "", some (JVal.obj [("success", JVal.bool false),
      ("errors", JVal.arr [JVal.obj [("code", JVal.num 1000),
        ("message", JVal.str "bad")]])])⟩
    [("success", JVal.bool false),
     ("errors", JVal.arr [JVal.obj [("code", JVal.num 1000),
       ("message", JVal.str "bad")]])]
    "/zones/z1" "GET" none [] "get_zone" [("zone_id", JVal.str "z1")]
    rfl rfl rfl
/-- C8: against the stub remote that stores the raw PUT body per URL and
serves it back on GET, writing then reading the same namespace and key
returns exactly the written string, for every namespace, key and value. -/
theorem kv_write_read_roundtrip (ns k v : String) :
    (_read_kv_value cfgDefaultAcct kvStubRemote
        (_write_kv_value cfgDefaultAcct kvStubRemote []
          [("namespace_id", JVal.str ns), ("key", JVal.str k),
           ("value", JVal.str v)]).2
        [("namespace_id", JVal.str ns), ("key", JVal.str k)]).1 =
      Except.ok v := by
  simp [cfgDefaultAcct, _write_kv_value, _read_kv_value, resolveAccountId,
    dictGet, kvStubRemote, storeGet, kvValuesUrl, JVal.pyStr, JVal.truthy,
    addIfTruthy, truthyArg, statusOk]

/-- Counterexample to C9: `list_zones` with the supplied falsy value
`page = 0` sends empty query parameters — the supplied field is dropped,
not included. -/
theorem list_zones_falsy_param_dropped :
    dictGet [("page", JVal.num 0)] "page" = some (JVal.num 0) ∧
    (_list_zones cfgDefaultAcct spyRemote [] [("page", JVal.num 0)]).2.map
        (fun r => r.params) = [[]] :=
  ⟨rfl, rfl⟩

/-- C9 amended: optional fields follow two regimes, across every handler
with optional fields. The truthiness-gated query and body fields — those
of `list_zones`, `list_dns_records` and `get_zone_analytics`, the
`purge_cache` selectors files/tags/hosts, and the KV parameters
page/per_page, prefix/limit/cursor and expiration_ttl/metadata — are
included exactly when the supplied value is truthy, so a supplied falsy
value such as 0, false or the empty string is dropped like an omission;
the presence-checked body fields — proxied/priority/comment of
`create_dns_record` and ttl/proxied/priority/comment of
`update_dns_record` — are included exactly when the key is supplied,
falsy values included. In both regimes an omitted field is absent from
the outbound request. -/
theorem optional_field_inclusion_regimes (cfg : Config) (args : Args)
    (z r t n c ns k v : JVal) (a : String)
    (hz : dictGet args "zone_id" = some z)
    (hr : dictGet args "record_id" = some r)
    (ht : dictGet args "type" = some t)
    (hn : dictGet args "name" = some n)
    (hc : dictGet args "content" = some c)
    (hns : dictGet args "namespace_id" = some ns)
    (hk : dictGet args "key" = some k)
    (hv : dictGet args "value" = some v)
    (hacct : resolveAccountId cfg args = Except.ok a)
    (hpe : truthyArg args "purge_everything" = false) :
    ((_list_zones cfg spyRemote [] args).2.map
        (fun q => (hasKeyJ q.params "name", hasKeyJ q.params "status",
          hasKeyJ q.params "page", hasKeyJ q.params "per_page")) =
      [(truthyArg args "name", truthyArg args "status",
        truthyArg args "page", truthyArg args "per_page")]) ∧
    ((_list_dns_records cfg spyRemote [] args).2.map
        (fun q => (hasKeyJ q.params "type", hasKeyJ q.params "name",
          hasKeyJ q.params "content", hasKeyJ q.params "page",
          hasKeyJ q.params "per_page")) =
      [(truthyArg args "type", truthyArg args "name",
        truthyArg args "content", truthyArg args "page",
        truthyArg args "per_page")]) ∧
    ((_get_zone_analytics cfg spyRemote [] args).2.map
        (fun q => (hasKeyJ q.params "since", hasKeyJ q.params "until")) =
      [(truthyArg args "since", truthyArg args "until")]) ∧
    ((_purge_cache cfg spyRemote [] args).2.map
        (fun q => (hasKeyJ q.body.jsonFields "files",
          hasKeyJ q.body.jsonFields "tags",
          hasKeyJ q.body.jsonFields "hosts")) =
      [(truthyArg args "files", truthyArg args "tags",
        truthyArg args "hosts")]) ∧
    ((_list_kv_namespaces cfg spyRemote [] args).2.map
        (fun q => (hasKeyJ q.params "page", hasKeyJ q.params "per_page")) =
      [(truthyArg args "page", truthyArg args "per_page")]) ∧
    ((_list_kv_keys cfg spyRemote [] args).2.map
        (fun q => (hasKeyJ q.params "prefix", hasKeyJ q.params "limit",
          hasKeyJ q.params "cursor")) =
      [(truthyArg args "prefix", truthyArg args "limit",
        truthyArg args "cursor")]) ∧
    ((_write_kv_value cfg spyRemote [] args).2.map
        (fun q => (hasKeyJ q.params "expiration_ttl",
          hasKeyJ q.params "metadata")) =
      [(truthyArg args "expiration_ttl", truthyArg args "metadata")]) ∧
    ((_create_dns_record cfg spyRemote [] args).2.map
        (fun q => (hasKeyJ q.body.jsonFields "proxied",
          hasKeyJ q.body.jsonFields "priority",
          hasKeyJ q.body.jsonFields "comment")) =
      [((dictGet args "proxied").isSome, (dictGet args "priority").isSome,
        (dictGet args "comment").isSome)]) ∧
    ((_update_dns_record cfg spyRemote [] args).2.map
        (fun q => (hasKeyJ q.body.jsonFields "ttl",
          hasKeyJ q.body.jsonFields "proxied",
          hasKeyJ q.body.jsonFields "priority",
          hasKeyJ q.body.jsonFields "comment")) =
      [((dictGet args "ttl").isSome, (dictGet args "proxied").isSome,
        (dictGet args "priority").isSome,
        (dictGet args "comment").isSome)]) := by
  refine ⟨?_, ?_, ?_, ?_, ?_, ?_, ?_, ?_, ?_⟩
  · simp [_list_zones, _make_request, spyRemote, statusOk, dictGet,
      JVal.truthy, hasKeyJ_addIfTruthy, hasKeyJ]
  · simp [_list_dns_records, hz, _make_request, spyRemote, statusOk,
      dictGet, JVal.truthy, hasKeyJ_addIfTruthy, hasKeyJ]
  · simp [_get_zone_analytics, hz, _make_request, spyRemote, statusOk,
      dictGet, JVal.truthy, hasKeyJ_addIfTruthy, hasKeyJ]
  · simp [_purge_cache, hz, hpe, _make_request, spyRemote,
      HttpBody.jsonFields, statusOk, dictGet, JVal.truthy,
      hasKeyJ_addIfTruthy, hasKeyJ]
  · simp [_list_kv_namespaces, hacct, _make_request, spyRemote, statusOk,
      dictGet, JVal.truthy, hasKeyJ_addIfTruthy, hasKeyJ]
  · simp [_list_kv_keys, hacct, hns, _make_request, spyRemote, statusOk,
      dictGet, JVal.truthy, hasKeyJ_addIfTruthy, hasKeyJ]
  · cases hm : dictGet args "metadata" with
    | none =>
        simp [_write_kv_value, hacct, hns, hk, hv, hm, spyRemote, statusOk,
          truthyArg, JVal.truthy, hasKeyJ_addIfTruthy, hasKeyJ, hasKeyJ_append]
    | some m =>
        by_cases hmt : m.truthy <;>
          simp [_write_kv_value, hacct, hns, hk, hv, hm, hmt, spyRemote,
            statusOk, truthyArg, hasKeyJ_addIfTruthy, hasKeyJ,
            hasKeyJ_append]
  · simp [_create_dns_record, ht, hn, hc, hz, _make_request, spyRemote,
      HttpBody.jsonFields, statusOk, dictGet, JVal.truthy,
      hasKeyJ_addIfPresent, hasKeyJ]
  · simp [_update_dns_record, ht, hn, hc, hz, hr, _make_request, spyRemote,
      HttpBody.jsonFields, statusOk, dictGet, JVal.truthy,
      hasKeyJ_addIfPresent, hasKeyJ]

/-- Witness for amended C9 at `argsRegimes`: the falsy `page` and
`expiration_ttl` are dropped from every truthiness-gated parameter list
and the truthy `status` and `files` are kept, while the presence-checked
updates include the supplied falsy `proxied = false` and `ttl = 0`. -/
theorem optional_field_inclusion_regimes_witness :
    ((_list_zones cfgDefaultAcct spyRemote [] argsRegimes).2.map
        (fun q => (hasKeyJ q.params "name", hasKeyJ q.params "status",
          hasKeyJ q.params "page", hasKeyJ q.params "per_page")) =
      [(truthyArg argsRegimes "name", truthyArg argsRegimes "status",
        truthyArg argsRegimes "page", truthyArg argsRegimes "per_page")]) ∧
    ((_list_dns_records cfgDefaultAcct spyRemote [] argsRegimes).2.map
        (fun q => (hasKeyJ q.params "type", hasKeyJ q.params "name",
          hasKeyJ q.params "content", hasKeyJ q.params "page",
          hasKeyJ q.params "per_page")) =
      [(truthyArg argsRegimes "type", truthyArg argsRegimes "name",
        truthyArg argsRegimes "content", truthyArg argsRegimes "page",
        truthyArg argsRegimes "per_page")]) ∧
    ((_get_zone_analytics cfgDefaultAcct spyRemote [] argsRegimes).2.map
        (fun q => (hasKeyJ q.params "since", hasKeyJ q.params "until")) =
      [(truthyArg argsRegimes "since", truthyArg argsRegimes "until")]) ∧
    ((_purge_cache cfgDefaultAcct spyRemote [] argsRegimes).2.map
        (fun q => (hasKeyJ q.body.jsonFields "files",
          hasKeyJ q.body.jsonFields "tags",
          hasKeyJ q.body.jsonFields "hosts")) =
      [(truthyArg argsRegimes "files", truthyArg argsRegimes "tags",
        truthyArg argsRegimes "hosts")]) ∧
    ((_list_kv_namespaces cfgDefaultAcct spyRemote [] argsRegimes).2.map
        (fun q => (hasKeyJ q.params "page", hasKeyJ q.params "per_page")) =
      [(truthyArg argsRegimes "page", truthyArg argsRegimes "per_page")]) ∧
    ((_list_kv_keys cfgDefaultAcct spyRemote [] argsRegimes).2.map
        (fun q => (hasKeyJ q.params "prefix", hasKeyJ q.params "limit",
          hasKeyJ q.params "cursor")) =
      [(truthyArg argsRegimes "prefix", truthyArg argsRegimes "limit",
        truthyArg argsRegimes "cursor")]) ∧
    ((_write_kv_value cfgDefaultAcct spyRemote [] argsRegimes).2.map
        (fun q => (hasKeyJ q.params "expiration_ttl",
          hasKeyJ q.params "metadata")) =
      [(truthyArg argsRegimes "expiration_ttl",
        truthyArg argsRegimes "metadata")]) ∧
    ((_create_dns_record cfgDefaultAcct spyRemote [] argsRegimes).2.map
        (fun q => (hasKeyJ q.body.jsonFields "proxied",
          hasKeyJ q.body.jsonFields "priority",
          hasKeyJ q.body.jsonFields "comment")) =
      [((dictGet argsRegimes "proxied").isSome,
        (dictGet argsRegimes "priority").isSome,
        (dictGet argsRegimes "comment").isSome)]) ∧
    ((_update_dns_record cfgDefaultAcct spyRemote [] argsRegimes).2.map
        (fun q => (hasKeyJ q.body.jsonFields "ttl",
          hasKeyJ q.body.jsonFields "proxied",
          hasKeyJ q.body.jsonFields "priority",
          hasKeyJ q.body.jsonFields "comment")) =
      [((dictGet argsRegimes "ttl").isSome,
        (dictGet argsRegimes "proxied").isSome,
        (dictGet argsRegimes "priority").isSome,
        (dictGet argsRegimes "comment").isSome)]) :=
  optional_field_inclusion_regimes cfgDefaultAcct argsRegimes
    (JVal.str "z1") (JVal.str "r1") (JVal.str "A") (JVal.str "n1")
    (JVal.str "c1") (JVal.str "ns1") (JVal.str "k1") (JVal.str "v1")
    "default-acct" rfl rfl rfl rfl rfl rfl rfl rfl rfl rfl
